import Mathlib

/-!
Verification of `src/libs/networks/resnet.py` (ResNet-v2-50 feature
extractor).  The module builds a TensorFlow computation graph; we embed the
graph construction shallowly: every framework primitive the module calls
(`ZeroPadding2D`, `Conv2D`, `tf.layers.batch_normalization`, `ReLU`,
`MaxPool2D`, elementwise `+`, `tf.identity`) becomes a constructor of an
expression type `Tensor`, and the module's Python functions become Lean
functions producing such expressions.  A shape semantics (`shape`,
`evalShape`) mirrors the framework's static shape arithmetic for the
`channels_last`/`channels_first`-independent abstract layout
(batch, height, width, channels).
-/

namespace ResnetV2

/-- Padding mode string passed to `Conv2D` / `MaxPool2D`
(`'SAME'` or `'VALID'`). -/
inductive Padding where
  | same : Padding
  | valid : Padding
  deriving DecidableEq, Repr

/-- Symbolic tensor expressions: the computation-graph nodes that
`resnet.py` can emit.  `zeroPad2D symH symW t` is Keras
`layers.ZeroPadding2D((symH, symW))`, whose 2-tuple of ints means
`symH` zero rows added on top AND bottom and `symW` zero columns added on
left AND right.  `conv2D filters kernelSize strides pad t` is
`layers.Conv2D` (square kernel, equal strides, `use_bias=False`);
`batchNorm axis training t` is `tf.layers.batch_normalization`;
`maxPool2D poolSize strides pad t` is `layers.MaxPool2D`;
`add a b` is the elementwise `a + b`; `identity name t` is
`tf.identity(t, name)`.  The graph's leaf `input b h w c` is a batch
tensor of abstract shape (batch, height, width, channels). -/
inductive Tensor where
  | input (b h w c : Nat) : Tensor
  | zeroPad2D (symH symW : Nat) (t : Tensor) : Tensor
  | conv2D (filters kernelSize strides : Nat) (pad : Padding) (t : Tensor) : Tensor
  | batchNorm (axis : Nat) (training : Bool) (t : Tensor) : Tensor
  | relu (t : Tensor) : Tensor
  | maxPool2D (poolSize strides : Nat) (pad : Padding) (t : Tensor) : Tensor
  | add (a b : Tensor) : Tensor
  | identity (name : String) (t : Tensor) : Tensor
  deriving DecidableEq, Repr

/-- Abstract tensor shape (batch, height, width, channels); the
`data_format` string only decides where the channel axis sits in the
concrete layout, which this abstraction quotients away. -/
structure Shape where
  batch : Nat
  height : Nat
  width : Nat
  channels : Nat
  deriving DecidableEq, Repr

/-- Output spatial extent of a convolution / pooling window of size `k`
with stride `s` over an input extent of `n`, as TensorFlow computes it:
`SAME` gives `ceil(n / s)`, `VALID` gives `floor((n - k) / s) + 1`. -/
def convOutDim (pad : Padding) (n k s : Nat) : Nat :=
  match pad with
  | Padding.same => (n + s - 1) / s
  | Padding.valid => (n - k) / s + 1

/-- Static shape of a graph node (the framework's shape inference,
without its validity checks; `add` is elementwise so we read the left
operand's shape). -/
def shape : Tensor → Shape
  | Tensor.input b h w c => ⟨b, h, w, c⟩
  | Tensor.zeroPad2D symH symW t =>
      let s := shape t
      ⟨s.batch, s.height + 2 * symH, s.width + 2 * symW, s.channels⟩
  | Tensor.conv2D filters kernelSize strides pad t =>
      let s := shape t
      ⟨s.batch, convOutDim pad s.height kernelSize strides,
        convOutDim pad s.width kernelSize strides, filters⟩
  | Tensor.batchNorm _ _ t => shape t
  | Tensor.relu t => shape t
  | Tensor.maxPool2D poolSize strides pad t =>
      let s := shape t
      ⟨s.batch, convOutDim pad s.height poolSize strides,
        convOutDim pad s.width poolSize strides, s.channels⟩
  | Tensor.add a _ => shape a
  | Tensor.identity _ t => shape t

/-! ## The module's functions, translated from `resnet.py` -/

/-- `batch_norm(inputs, training, data_format)` (resnet.py:17-24):
`tf.layers.batch_normalization` on axis 1 for `channels_first`, else
axis 3. -/
def batch_norm (inputs : Tensor) (training : Bool) (data_format : String) : Tensor :=
  Tensor.batchNorm (if data_format = "channels_first" then 1 else 3) training inputs

/-- `fixed_padding(inputs, kernel_size, data_format)` (resnet.py:27-47):
computes `pad_total = kernel_size - 1`, `pad_beg = pad_total // 2`,
`pad_end = pad_total - pad_beg` and calls
`layers.ZeroPadding2D((pad_beg, pad_end))`.  (All call sites pass a
positive `kernel_size`, so Nat subtraction agrees with Python here.) -/
def fixed_padding (inputs : Tensor) (kernel_size : Nat) (data_format : String) : Tensor :=
  let pad_total := kernel_size - 1
  let pad_beg := pad_total / 2
  let pad_end := pad_total - pad_beg
  Tensor.zeroPad2D pad_beg pad_end inputs

/-- `conv2d_fixed_padding(inputs, filters, kernel_size, strides, data_format)`
(resnet.py:50-62): pre-pads with `fixed_padding` when `strides > 1`, then
`layers.Conv2D` with `'SAME'` padding iff `strides == 1`, `'VALID'`
otherwise. -/
def conv2d_fixed_padding (inputs : Tensor) (filters kernel_size strides : Nat)
    (data_format : String) : Tensor :=
  let inputs := if strides > 1 then fixed_padding inputs kernel_size data_format else inputs
  Tensor.conv2D filters kernel_size strides
    (if strides = 1 then Padding.same else Padding.valid) inputs

/-- `_building_block_v2(inputs, filters, training, projection_shortcut,
strides, data_format)` (resnet.py:65-130): two-convolution ResNet v2
block without bottleneck. -/
def _building_block_v2 (inputs : Tensor) (filters : Nat) (training : Bool)
    (projection_shortcut : Option (Tensor → Tensor)) (strides : Nat)
    (data_format : String) : Tensor :=
  let shortcut := inputs
  let inputs := batch_norm inputs training data_format
  let inputs := Tensor.relu inputs
  let shortcut := match projection_shortcut with
    | some p => p inputs
    | none => shortcut
  let inputs := conv2d_fixed_padding inputs filters 3 strides data_format
  let inputs := batch_norm inputs training data_format
  let inputs := Tensor.relu inputs
  let inputs := conv2d_fixed_padding inputs filters 3 1 data_format
  Tensor.add inputs shortcut

/-- `_bottleneck_block_v2(inputs, filters, training, projection_shortcut,
strides, data_format)` (resnet.py:133-190): pre-activation bottleneck
block, `(BN, ReLU, conv)` three times with kernel sizes 1, 3, 1, the last
convolution with `4 * filters` filters, plus the shortcut. -/
def _bottleneck_block_v2 (inputs : Tensor) (filters : Nat) (training : Bool)
    (projection_shortcut : Option (Tensor → Tensor)) (strides : Nat)
    (data_format : String) : Tensor :=
  let shortcut := inputs
  let inputs := batch_norm inputs training data_format
  let inputs := Tensor.relu inputs
  let shortcut := match projection_shortcut with
    | some p => p inputs
    | none => shortcut
  let inputs := conv2d_fixed_padding inputs filters 1 1 data_format
  let inputs := batch_norm inputs training data_format
  let inputs := Tensor.relu inputs
  let inputs := conv2d_fixed_padding inputs filters 3 strides data_format
  let inputs := batch_norm inputs training data_format
  let inputs := Tensor.relu inputs
  let inputs := conv2d_fixed_padding inputs (4 * filters) 1 1 data_format
  Tensor.add inputs shortcut

/-- `block_layer(inputs, filters, bottleneck, block_fn, blocks, strides,
training, name, data_format)` (resnet.py:193-231): first block gets the
projection shortcut (1x1 convolution with `filters_out` filters and the
layer's stride) and the layer's stride; the remaining `blocks - 1`
blocks (`for _ in range(1, blocks)`) get no projection shortcut and
stride 1; the result is wrapped in `tf.identity(inputs, name)`. -/
def block_layer (inputs : Tensor) (filters : Nat) (bottleneck : Bool)
    (block_fn : Tensor → Nat → Bool → Option (Tensor → Tensor) → Nat → String → Tensor)
    (blocks strides : Nat) (training : Bool) (name : String)
    (data_format : String) : Tensor :=
  let filters_out := if bottleneck then filters * 4 else filters
  let projection_shortcut := fun inputs =>
    conv2d_fixed_padding inputs filters_out 1 strides data_format
  let inputs := block_fn inputs filters training (some projection_shortcut) strides data_format
  let inputs := (List.range (blocks - 1)).foldl
    (fun acc _ => block_fn acc filters training none 1 data_format) inputs
  Tensor.identity name inputs

/-- `resnet_v2(inputs, training, reuse, data_format)` (resnet.py:234-270):
the stem (7x7 stride-2 convolution, `initial_conv` identity, 3x3 stride-2
SAME max pool, `initial_max_pool` identity) followed by four block layers
(`for i, num_blocks in enumerate([3, 4, 6, 3])`) with
`num_filters = 64 * 2 ** i`, `block_strides = [1, 2, 2, 2]`, bottleneck
blocks, each output stored in the returned mapping under key
`'C%d' % (i + 2)`.  The `reuse` argument and the `'resnet_model'`
variable scope only affect TensorFlow variable sharing, not the graph
topology, and are not modelled.  The mapping is modelled as an
association list in insertion order. -/
def resnet_v2 (inputs : Tensor) (training : Bool) (data_format : String) :
    List (String × Tensor) :=
  let inputs := conv2d_fixed_padding inputs 64 7 2 data_format
  let inputs := Tensor.identity "initial_conv" inputs
  let inputs := Tensor.maxPool2D 3 2 Padding.same inputs
  let inputs := Tensor.identity "initial_max_pool" inputs
  let block_strides := [1, 2, 2, 2]
  let result := ([3, 4, 6, 3].enum).foldl
    (fun (acc : Tensor × List (String × Tensor)) (p : Nat × Nat) =>
      let i := p.1
      let num_blocks := p.2
      let num_filters := 64 * 2 ^ i
      let out := block_layer acc.1 num_filters true _bottleneck_block_v2 num_blocks
        (block_strides.getD i 0) training ("block_layer" ++ toString (i + 1)) data_format
      (out, acc.2 ++ [("C" ++ toString (i + 2), out)]))
    (inputs, [])
  result.2

/-! ## Derived descriptions used to state the claims -/

/-- The stem of `resnet_v2` as the spec describes it: 7x7 stride-2
convolution named `initial_conv`, then a 3x3 stride-2 SAME max pool named
`initial_max_pool`, with nothing else in between. -/
def initialMaxPoolOut (inputs : Tensor) (data_format : String) : Tensor :=
  Tensor.identity "initial_max_pool"
    (Tensor.maxPool2D 3 2 Padding.same
      (Tensor.identity "initial_conv"
        (conv2d_fixed_padding inputs 64 7 2 data_format)))

/-- `blockLayerChain inputs training data_format i` is the output tensor of
block layer `i` of the network (stage `i`, 1-based), with
`blockLayerChain inputs training data_format 0` the stem output: stage `i+1`
applies `block_layer` with `64 * 2 ^ i` filters,
`[3, 4, 6, 3][i]` bottleneck blocks and stride `[1, 2, 2, 2][i]`. -/
def blockLayerChain (inputs : Tensor) (training : Bool) (data_format : String) :
    Nat → Tensor
  | 0 => initialMaxPoolOut inputs data_format
  | n + 1 => block_layer (blockLayerChain inputs training data_format n)
      (64 * 2 ^ n) true _bottleneck_block_v2 ([3, 4, 6, 3].getD n 0)
      ([1, 2, 2, 2].getD n 0) training ("block_layer" ++ toString (n + 1)) data_format

/-- ResNet-v2-50 assembly following the spec's words, stage by stage:
after the stem come exactly four stages of bottleneck blocks
(`block_fn = _bottleneck_block_v2`, `bottleneck = true`) with block counts
3, 4, 6, 3 and first-convolution filter counts 64, 128, 256, 512
(`64 * 2 ^ i` for stage index `i`), strides 1, 2, 2, 2. -/
def resnet_v2_50_spec (inputs : Tensor) (training : Bool) (data_format : String) :
    List (String × Tensor) :=
  let stem := initialMaxPoolOut inputs data_format
  let c2 := block_layer stem 64 true _bottleneck_block_v2 3 1 training
    "block_layer1" data_format
  let c3 := block_layer c2 128 true _bottleneck_block_v2 4 2 training
    "block_layer2" data_format
  let c4 := block_layer c3 256 true _bottleneck_block_v2 6 2 training
    "block_layer3" data_format
  let c5 := block_layer c4 512 true _bottleneck_block_v2 3 2 training
    "block_layer4" data_format
  [("C2", c2), ("C3", c3), ("C4", c4), ("C5", c5)]

/-- The convolutional path of `_bottleneck_block_v2`: batch normalization
then ReLU then convolution, three times, with kernel sizes 1, 3, 1, the
middle convolution carrying the block's stride and the last one
`4 * filters` filters. -/
def bottleneckConvPath (inputs : Tensor) (filters : Nat) (training : Bool)
    (strides : Nat) (data_format : String) : Tensor :=
  conv2d_fixed_padding
    (Tensor.relu (batch_norm
      (conv2d_fixed_padding
        (Tensor.relu (batch_norm
          (conv2d_fixed_padding
            (Tensor.relu (batch_norm inputs training data_format))
            filters 1 1 data_format)
          training data_format))
        filters 3 strides data_format)
      training data_format))
    (4 * filters) 1 1 data_format

/-- The direct sub-expressions of a graph node. -/
def children : Tensor → List Tensor
  | Tensor.input _ _ _ _ => []
  | Tensor.zeroPad2D _ _ t => [t]
  | Tensor.conv2D _ _ _ _ t => [t]
  | Tensor.batchNorm _ _ t => [t]
  | Tensor.relu t => [t]
  | Tensor.maxPool2D _ _ _ t => [t]
  | Tensor.add a b => [a, b]
  | Tensor.identity _ t => [t]

/-- All sub-expressions of a graph, the graph itself included. -/
def subterms : Tensor → List Tensor
  | Tensor.input b h w c => [Tensor.input b h w c]
  | Tensor.zeroPad2D symH symW t => Tensor.zeroPad2D symH symW t :: subterms t
  | Tensor.conv2D f k st p t => Tensor.conv2D f k st p t :: subterms t
  | Tensor.batchNorm a tr t => Tensor.batchNorm a tr t :: subterms t
  | Tensor.relu t => Tensor.relu t :: subterms t
  | Tensor.maxPool2D k st p t => Tensor.maxPool2D k st p t :: subterms t
  | Tensor.add a b => Tensor.add a b :: (subterms a ++ subterms b)
  | Tensor.identity nm t => Tensor.identity nm t :: subterms t

/-- Shape inference together with the underlying framework's own
validation, the only source of failure in the whole module: a zero stride
or window is rejected, a `VALID` convolution or pooling window must fit
inside its input, and the elementwise addition of the residual connection
requires equal operand shapes.  `none` is a framework-raised error; the
module itself defines no error type of its own. -/
def evalShape : Tensor → Option Shape
  | Tensor.input b h w c => some ⟨b, h, w, c⟩
  | Tensor.zeroPad2D symH symW t =>
      (evalShape t).map fun s =>
        ⟨s.batch, s.height + 2 * symH, s.width + 2 * symW, s.channels⟩
  | Tensor.conv2D filters kernelSize strides pad t =>
      (evalShape t).bind fun s =>
        if strides = 0 ∨ kernelSize = 0 then none
        else match pad with
          | Padding.same =>
              some ⟨s.batch, convOutDim Padding.same s.height kernelSize strides,
                convOutDim Padding.same s.width kernelSize strides, filters⟩
          | Padding.valid =>
              if kernelSize ≤ s.height ∧ kernelSize ≤ s.width then
                some ⟨s.batch, convOutDim Padding.valid s.height kernelSize strides,
                  convOutDim Padding.valid s.width kernelSize strides, filters⟩
              else none
  | Tensor.batchNorm _ _ t => (evalShape t).map fun s => s
  | Tensor.relu t => (evalShape t).map fun s => s
  | Tensor.maxPool2D poolSize strides pad t =>
      (evalShape t).bind fun s =>
        if strides = 0 ∨ poolSize = 0 then none
        else match pad with
          | Padding.same =>
              some ⟨s.batch, convOutDim Padding.same s.height poolSize strides,
                convOutDim Padding.same s.width poolSize strides, s.channels⟩
          | Padding.valid =>
              if poolSize ≤ s.height ∧ poolSize ≤ s.width then
                some ⟨s.batch, convOutDim Padding.valid s.height poolSize strides,
                  convOutDim Padding.valid s.width poolSize strides, s.channels⟩
              else none
  | Tensor.add a b =>
      (evalShape a).bind fun sa => (evalShape b).bind fun sb =>
        if sa = sb then some sa else none
  | Tensor.identity _ t => (evalShape t).map fun s => s

end ResnetV2

namespace ResnetV2

/-! ## Shape lemmas shared by the claims -/

/-- Shared unrolling of `resnet_v2`: the returned mapping lists, in order,
the keys `C2`..`C5` bound to the four successive block-layer outputs. -/
theorem resnet_v2_eq_chain (inputs : Tensor) (training : Bool) (data_format : String) :
    resnet_v2 inputs training data_format =
      [("C2", blockLayerChain inputs training data_format 1),
       ("C3", blockLayerChain inputs training data_format 2),
       ("C4", blockLayerChain inputs training data_format 3),
       ("C5", blockLayerChain inputs training data_format 4)] := rfl

/-- A bottleneck block with stride 1 preserves batch, height and width and
outputs `4 * filters` channels (the shape is read off the convolutional
path, with which the shortcut must agree for the graph to be valid). -/
theorem shape_bottleneck_one (t : Tensor) (f : Nat) (tr : Bool)
    (ps : Option (Tensor → Tensor)) (df : String) :
    shape (_bottleneck_block_v2 t f tr ps 1 df) =
      ⟨(shape t).batch, (shape t).height, (shape t).width, 4 * f⟩ := by
  simp [_bottleneck_block_v2, conv2d_fixed_padding, batch_norm, shape, convOutDim]

/-- A bottleneck block with stride 2 halves (rounding as the padded VALID
convolution does) height and width and outputs `4 * filters` channels. -/
theorem shape_bottleneck_two (t : Tensor) (f : Nat) (tr : Bool)
    (ps : Option (Tensor → Tensor)) (df : String) :
    shape (_bottleneck_block_v2 t f tr ps 2 df) =
      ⟨(shape t).batch, ((shape t).height - 1) / 2 + 1,
        ((shape t).width - 1) / 2 + 1, 4 * f⟩ := by
  simp only [_bottleneck_block_v2, conv2d_fixed_padding, fixed_padding,
    batch_norm, shape, convOutDim]
  norm_num [Shape.mk.injEq]
  constructor <;> omega

/-- Iterating stride-1 bottleneck blocks over any index list leaves the
shape unchanged once the running tensor already has `4 * filters`
channels. -/
theorem shape_foldl_blocks (f : Nat) (tr : Bool) (df : String) (l : List Nat) :
    ∀ t : Tensor, (shape t).channels = 4 * f →
      shape (l.foldl (fun acc _ => _bottleneck_block_v2 acc f tr none 1 df) t) =
        shape t := by
  induction l with
  | nil => intro t _; rfl
  | cons x xs ih =>
    intro t h
    rw [List.foldl_cons]
    have hstep : shape (_bottleneck_block_v2 t f tr none 1 df) = shape t := by
      rw [shape_bottleneck_one, ← h]
    rw [ih _ (by rw [hstep, h]), hstep]

/-- Shape of a stride-1 bottleneck `block_layer` (any positive or zero
block count): batch, height and width of the input, `4 * filters`
channels. -/
theorem shape_block_layer_one (t : Tensor) (f blocks : Nat) (tr : Bool)
    (nm df : String) :
    shape (block_layer t f true _bottleneck_block_v2 blocks 1 tr nm df) =
      ⟨(shape t).batch, (shape t).height, (shape t).width, 4 * f⟩ := by
  simp only [block_layer, shape]
  rw [shape_foldl_blocks f tr df _ _ (by rw [shape_bottleneck_one]),
    shape_bottleneck_one]

/-- Shape of a stride-2 bottleneck `block_layer`: spatial dimensions
`(n - 1) / 2 + 1`, channels `4 * filters`. -/
theorem shape_block_layer_two (t : Tensor) (f blocks : Nat) (tr : Bool)
    (nm df : String) :
    shape (block_layer t f true _bottleneck_block_v2 blocks 2 tr nm df) =
      ⟨(shape t).batch, ((shape t).height - 1) / 2 + 1,
        ((shape t).width - 1) / 2 + 1, 4 * f⟩ := by
  simp only [block_layer, shape]
  rw [shape_foldl_blocks f tr df _ _ (by rw [shape_bottleneck_two]),
    shape_bottleneck_two]

/-! ## Claims -/

/-- C1: for every input batch tensor and training flag, `resnet_v2`
returns a mapping whose keys are exactly `C2`, `C3`, `C4`, `C5`, where key
`C%d % (i + 2)` maps to the output tensor of block layer `i + 1` for
`i = 0..3` — a mapping of named feature tensors, not a single logits
tensor. -/
theorem c1_returns_feature_map (inputs : Tensor) (training : Bool)
    (data_format : String) :
    (resnet_v2 inputs training data_format).map Prod.fst = ["C2", "C3", "C4", "C5"] ∧
    resnet_v2 inputs training data_format =
      (List.range 4).map fun i =>
        ("C" ++ toString (i + 2), blockLayerChain inputs training data_format (i + 1)) :=
  ⟨rfl, rfl⟩

/-- C2: `resnet_v2` constructs a ResNet-v2-50 backbone: after the stem it
assembles exactly four stages of bottleneck blocks
(`block_fn = _bottleneck_block_v2`, `bottleneck = true`) with block counts
3, 4, 6, 3 and first-convolution filter counts `64 * 2 ^ i`
(64, 128, 256, 512). -/
theorem c2_resnet50_structure (inputs : Tensor) (training : Bool)
    (data_format : String) :
    resnet_v2 inputs training data_format =
      resnet_v2_50_spec inputs training data_format := rfl

/-- C4 (counterexample): the claim that, for `strides > 1`,
`conv2d_fixed_padding` explicitly zero-pads by a total of
`kernel_size - 1` (split `(kernel_size - 1) // 2` before, the remainder
after) fails at `kernel_size = 2`: the code hands the pair
`(pad_beg, pad_end) = (0, 1)` to Keras `ZeroPadding2D`, which reads it as
(symmetric height pad, symmetric width pad), so on a 5 x 5 input the
explicit zero-pad leaves the height at 5 (total 0, not 1) and raises the
width to 7 (total 2, not 1). -/
theorem c4_counterexample :
    conv2d_fixed_padding (Tensor.input 1 5 5 3) 8 2 2 "channels_last" =
      Tensor.conv2D 8 2 2 Padding.valid
        (Tensor.zeroPad2D 0 1 (Tensor.input 1 5 5 3)) ∧
    (shape (Tensor.zeroPad2D 0 1 (Tensor.input 1 5 5 3))).height = 5 ∧
    (shape (Tensor.zeroPad2D 0 1 (Tensor.input 1 5 5 3))).width = 7 :=
  ⟨rfl, rfl, rfl⟩

/-- C4 (amended): the spatial padding applied by `conv2d_fixed_padding`
is determined only by `kernel_size`, never by the input's spatial
dimensions: when `strides > 1` it explicitly zero-pads with the
kernel-size-derived amounts `pad_beg = (kernel_size - 1) / 2` symmetric on
the height and `pad_end = (kernel_size - 1) - pad_beg` symmetric on the
width — a total of `kernel_size - 1` per spatial dimension exactly when
`kernel_size` is odd — and then convolves with `VALID` padding; when
`strides == 1` it applies no explicit pre-padding and uses `SAME`
padding. -/
theorem c4_padding_from_kernel_size (inputs : Tensor)
    (filters kernel_size strides : Nat) (data_format : String) :
    (strides = 1 →
      conv2d_fixed_padding inputs filters kernel_size strides data_format =
        Tensor.conv2D filters kernel_size 1 Padding.same inputs) ∧
    (1 < strides →
      conv2d_fixed_padding inputs filters kernel_size strides data_format =
        Tensor.conv2D filters kernel_size strides Padding.valid
          (Tensor.zeroPad2D ((kernel_size - 1) / 2)
            ((kernel_size - 1) - (kernel_size - 1) / 2) inputs)) ∧
    (1 < strides → kernel_size % 2 = 1 →
      (shape (fixed_padding inputs kernel_size data_format)).height =
        (shape inputs).height + (kernel_size - 1) ∧
      (shape (fixed_padding inputs kernel_size data_format)).width =
        (shape inputs).width + (kernel_size - 1)) := by
  refine ⟨fun h1 => ?_, fun h2 => ?_, fun h2 hodd => ?_⟩
  · subst h1; rfl
  · have hne : ¬ strides = 1 := by omega
    have hgt : strides > 1 := h2
    simp [conv2d_fixed_padding, fixed_padding, if_pos hgt, if_neg hne]
  · constructor
    · simp only [fixed_padding, shape]
      omega
    · simp only [fixed_padding, shape]
      omega

/-- C4 (witness): the amended theorem applied at `kernel_size = 7`,
`strides = 2` on a concrete input. -/
theorem c4_padding_from_kernel_size_witness :
    (1 < 2 ∧ 7 % 2 = 1) ∧
    conv2d_fixed_padding (Tensor.input 1 32 32 3) 64 7 2 "channels_last" =
      Tensor.conv2D 64 7 2 Padding.valid
        (Tensor.zeroPad2D ((7 - 1) / 2) ((7 - 1) - (7 - 1) / 2)
          (Tensor.input 1 32 32 3)) ∧
    (shape (fixed_padding (Tensor.input 1 32 32 3) 7 "channels_last")).height =
      (shape (Tensor.input 1 32 32 3)).height + (7 - 1) :=
  ⟨⟨by decide, by decide⟩,
   (c4_padding_from_kernel_size (Tensor.input 1 32 32 3) 64 7 2
      "channels_last").2.1 (by decide),
   ((c4_padding_from_kernel_size (Tensor.input 1 32 32 3) 64 7 2
      "channels_last").2.2 (by decide) (by decide)).1⟩

/-- C5: every convolution of the bottleneck block is preceded by batch
normalization then ReLU (the BN-ReLU-conv triple appears three times,
with kernel sizes 1, 3, 1, as spelled out by `bottleneckConvPath`), and
inside `resnet_v2` the initial stem convolution is followed by no batch
normalization or activation before the first stage: only the
`initial_conv` identity, the max pool and the `initial_max_pool` identity
stand between it and `block_layer1`. -/
theorem c5_preactivation_ordering (inputs : Tensor) (filters : Nat)
    (training : Bool) (projection_shortcut : Option (Tensor → Tensor))
    (strides : Nat) (data_format : String) :
    _bottleneck_block_v2 inputs filters training projection_shortcut strides
        data_format =
      Tensor.add (bottleneckConvPath inputs filters training strides data_format)
        (match projection_shortcut with
          | some p => p (Tensor.relu (batch_norm inputs training data_format))
          | none => inputs) ∧
    (resnet_v2 inputs training data_format).getD 0 ("", inputs) =
      ("C2", block_layer
        (Tensor.identity "initial_max_pool"
          (Tensor.maxPool2D 3 2 Padding.same
            (Tensor.identity "initial_conv"
              (conv2d_fixed_padding inputs 64 7 2 data_format))))
        64 true _bottleneck_block_v2 3 1 training "block_layer1" data_format) := by
  refine ⟨?_, rfl⟩
  cases projection_shortcut <;> rfl

/-- C6: every block returns the elementwise sum of its convolutional path
and a shortcut; inside `block_layer` only the first block receives a
projection shortcut (a 1x1 convolution with the stage's stride and
`filters_out` filters) and the stage's stride, while every later block
receives no projection shortcut and stride 1; a bottleneck block without
a projection shortcut adds the unmodified input, and with one it adds the
projection applied to the pre-activated input (after the first batch norm
and ReLU). -/
theorem c6_residual_topology (inputs : Tensor) (filters : Nat)
    (bottleneck : Bool)
    (block_fn : Tensor → Nat → Bool → Option (Tensor → Tensor) → Nat → String → Tensor)
    (blocks strides : Nat) (training : Bool) (name : String)
    (data_format : String) :
    block_layer inputs filters bottleneck block_fn blocks strides training name
        data_format =
      Tensor.identity name
        ((List.range (blocks - 1)).foldl
          (fun acc _ => block_fn acc filters training none 1 data_format)
          (block_fn inputs filters training
            (some fun x => conv2d_fixed_padding x
              (if bottleneck then filters * 4 else filters) 1 strides data_format)
            strides data_format)) ∧
    (∀ t f tr s df, _bottleneck_block_v2 t f tr none s df =
      Tensor.add (bottleneckConvPath t f tr s df) t) ∧
    (∀ t f tr s df (p : Tensor → Tensor),
      _bottleneck_block_v2 t f tr (some p) s df =
        Tensor.add (bottleneckConvPath t f tr s df)
          (p (Tensor.relu (batch_norm t tr df)))) :=
  ⟨rfl, fun _ _ _ _ _ => rfl, fun _ _ _ _ _ _ => rfl⟩

/-- C8: `fixed_padding` with `kernel_size = 1` emits a zero-on-every-border
padding, leaving the shape intact; for odd `kernel_size > 1` it adds
`(kernel_size - 1) / 2` zero rows and columns on each of the four spatial
borders, growing each spatial dimension by exactly `kernel_size - 1`; for
even `kernel_size` the pair `(pad_beg, pad_end)` handed to `ZeroPadding2D`
is read as (symmetric height pad, symmetric width pad), so the height
grows by `kernel_size - 2` and the width by `kernel_size`, not by
`kernel_size - 1` each. -/
theorem c8_fixed_padding_growth (inputs : Tensor) (kernel_size : Nat)
    (data_format : String) :
    (kernel_size = 1 →
      fixed_padding inputs kernel_size data_format =
        Tensor.zeroPad2D 0 0 inputs ∧
      shape (fixed_padding inputs kernel_size data_format) = shape inputs) ∧
    (kernel_size % 2 = 1 → 1 < kernel_size →
      fixed_padding inputs kernel_size data_format =
        Tensor.zeroPad2D ((kernel_size - 1) / 2) ((kernel_size - 1) / 2) inputs ∧
      (shape (fixed_padding inputs kernel_size data_format)).height =
        (shape inputs).height + (kernel_size - 1) ∧
      (shape (fixed_padding inputs kernel_size data_format)).width =
        (shape inputs).width + (kernel_size - 1)) ∧
    (kernel_size % 2 = 0 → 1 ≤ kernel_size →
      (shape (fixed_padding inputs kernel_size data_format)).height =
        (shape inputs).height + (kernel_size - 2) ∧
      (shape (fixed_padding inputs kernel_size data_format)).width =
        (shape inputs).width + kernel_size) := by
  refine ⟨fun h1 => ?_, fun hodd hgt => ?_, fun heven hpos => ?_⟩
  · subst h1
    exact ⟨rfl, by simp [fixed_padding, shape]⟩
  · refine ⟨?_, ?_, ?_⟩
    · have h : (kernel_size - 1) - (kernel_size - 1) / 2 = (kernel_size - 1) / 2 := by
        omega
      simp [fixed_padding, h]
    · simp only [fixed_padding, shape]; omega
    · simp only [fixed_padding, shape]; omega
  · constructor
    · simp only [fixed_padding, shape]; omega
    · simp only [fixed_padding, shape]; omega

/-- C8 (witness): the three cases of the growth theorem instantiated at
`kernel_size` 1, 3 and 2 on a concrete input. -/
theorem c8_fixed_padding_growth_witness :
    (fixed_padding (Tensor.input 1 10 10 3) 1 "channels_last" =
      Tensor.zeroPad2D 0 0 (Tensor.input 1 10 10 3)) ∧
    ((shape (fixed_padding (Tensor.input 1 10 10 3) 3 "channels_last")).height =
      (shape (Tensor.input 1 10 10 3)).height + (3 - 1)) ∧
    ((shape (fixed_padding (Tensor.input 1 10 10 3) 2 "channels_last")).width =
      (shape (Tensor.input 1 10 10 3)).width + 2) :=
  ⟨((c8_fixed_padding_growth (Tensor.input 1 10 10 3) 1 "channels_last").1
      rfl).1,
   ((c8_fixed_padding_growth (Tensor.input 1 10 10 3) 3 "channels_last").2.1
      (by decide) (by decide)).2.1,
   ((c8_fixed_padding_growth (Tensor.input 1 10 10 3) 2 "channels_last").2.2
      (by decide) (by decide)).2⟩

/-- C3: the returned feature maps are multi-scale: for an input of
spatial size H x W with H and W (positive and) divisible by 32, the
feature maps `C2`, `C3`, `C4`, `C5` have spatial sizes H/4 x W/4,
H/8 x W/8, H/16 x W/16, H/32 x W/32 — the stem (7x7 stride-2 convolution
then 3x3 stride-2 SAME max pool) downsamples by 4, stage 1 uses stride 1
and stages 2-4 each use stride 2. -/
theorem c3_multiscale_sizes (b h w c : Nat) (training : Bool)
    (data_format : String) (hh : 32 ∣ h) (hw : 32 ∣ w)
    (hh0 : 0 < h) (hw0 : 0 < w) :
    (resnet_v2 (Tensor.input b h w c) training data_format).map
        (fun p => ((shape p.2).height, (shape p.2).width)) =
      [(h / 4, w / 4), (h / 8, w / 8), (h / 16, w / 16), (h / 32, w / 32)] := by
  obtain ⟨m, rfl⟩ := hh
  obtain ⟨q, rfl⟩ := hw
  have hm : 1 ≤ m := by omega
  have hq : 1 ≤ q := by omega
  have e0 : shape (blockLayerChain (Tensor.input b (32 * m) (32 * q) c)
      training data_format 0) = ⟨b, 8 * m, 8 * q, 64⟩ := by
    simp only [blockLayerChain, initialMaxPoolOut, conv2d_fixed_padding,
      fixed_padding, shape, convOutDim]
    norm_num [Shape.mk.injEq]
    constructor <;> omega
  have e1 : shape (blockLayerChain (Tensor.input b (32 * m) (32 * q) c)
      training data_format 1) = ⟨b, 8 * m, 8 * q, 256⟩ := by
    show shape (block_layer _ 64 true _bottleneck_block_v2 3 1
      training "block_layer1" data_format) = _
    rw [shape_block_layer_one, e0]
  have e2 : shape (blockLayerChain (Tensor.input b (32 * m) (32 * q) c)
      training data_format 2) = ⟨b, 4 * m, 4 * q, 512⟩ := by
    show shape (block_layer _ 128 true _bottleneck_block_v2 4 2
      training "block_layer2" data_format) = _
    rw [shape_block_layer_two, e1]
    simp only [Shape.mk.injEq, true_and, and_true]
    omega
  have e3 : shape (blockLayerChain (Tensor.input b (32 * m) (32 * q) c)
      training data_format 3) = ⟨b, 2 * m, 2 * q, 1024⟩ := by
    show shape (block_layer _ 256 true _bottleneck_block_v2 6 2
      training "block_layer3" data_format) = _
    rw [shape_block_layer_two, e2]
    simp only [Shape.mk.injEq, true_and, and_true]
    omega
  have e4 : shape (blockLayerChain (Tensor.input b (32 * m) (32 * q) c)
      training data_format 4) = ⟨b, m, q, 2048⟩ := by
    show shape (block_layer _ 512 true _bottleneck_block_v2 3 2
      training "block_layer4" data_format) = _
    rw [shape_block_layer_two, e3]
    simp only [Shape.mk.injEq, true_and, and_true]
    omega
  rw [resnet_v2_eq_chain]
  simp only [List.map_cons, List.map_nil, e1, e2, e3, e4, List.cons.injEq,
    Prod.mk.injEq, and_true]
  omega

/-- C3 (witness): at a concrete 32 x 64 input the four feature maps have
spatial sizes 8 x 16, 4 x 8, 2 x 4, 1 x 2. -/
theorem c3_multiscale_sizes_witness :
    (resnet_v2 (Tensor.input 1 32 64 3) false "channels_last").map
        (fun p => ((shape p.2).height, (shape p.2).width)) =
      [(32 / 4, 64 / 4), (32 / 8, 64 / 8), (32 / 16, 64 / 16),
       (32 / 32, 64 / 32)] :=
  c3_multiscale_sizes 1 32 64 3 false "channels_last"
    (by decide) (by decide) (by decide) (by decide)

/-- C9: for every input, the four returned feature maps have channel
counts 256, 512, 1024, 2048; each bottleneck stage outputs 4 times its
first-convolution filter count because both summands of a first block's
residual addition — the convolutional path, whose final 1x1 convolution
has `4 * filters` filters, and the projection shortcut with
`filters_out = filters * 4` filters — carry `4 * filters` channels. -/
theorem c9_channel_counts (inputs : Tensor) (training : Bool)
    (data_format : String) :
    (resnet_v2 inputs training data_format).map
        (fun p => (shape p.2).channels) = [256, 512, 1024, 2048] ∧
    (∀ t f tr s df, ∃ a b, _bottleneck_block_v2 t f tr
        (some fun x => conv2d_fixed_padding x (f * 4) 1 s df) s df =
          Tensor.add a b ∧
        (shape a).channels = 4 * f ∧ (shape b).channels = 4 * f) := by
  constructor
  · rw [resnet_v2_eq_chain]
    show [(shape (block_layer (blockLayerChain inputs training data_format 0)
        64 true _bottleneck_block_v2 3 1 training "block_layer1"
        data_format)).channels,
      (shape (block_layer (blockLayerChain inputs training data_format 1)
        128 true _bottleneck_block_v2 4 2 training "block_layer2"
        data_format)).channels,
      (shape (block_layer (blockLayerChain inputs training data_format 2)
        256 true _bottleneck_block_v2 6 2 training "block_layer3"
        data_format)).channels,
      (shape (block_layer (blockLayerChain inputs training data_format 3)
        512 true _bottleneck_block_v2 3 2 training "block_layer4"
        data_format)).channels] = [256, 512, 1024, 2048]
    rw [shape_block_layer_one, shape_block_layer_two, shape_block_layer_two,
      shape_block_layer_two]
  · intro t f tr s df
    refine ⟨bottleneckConvPath t f tr s df,
      conv2d_fixed_padding (Tensor.relu (batch_norm t tr df)) (f * 4) 1 s df,
      ?_, ?_, ?_⟩
    · rfl
    · simp [bottleneckConvPath, conv2d_fixed_padding, shape]
    · simp [conv2d_fixed_padding, shape, Nat.mul_comm]

/-- C10: for every stride `s > 1`, odd kernel size `k`, and input spatial
extent `n ≥ 1`, `conv2d_fixed_padding` produces output spatial extent
`(n - 1) / s + 1 = ceil(n / s)`, independent of `n` modulo `s`: the
explicit padding brings the extent to `n + k - 1` and the VALID
convolution yields `(n + k - 1 - k) / s + 1` in exact integer
arithmetic. -/
theorem c10_strided_output_extent (b n w c f k s : Nat) (df : String)
    (hs : 1 < s) (hk : k % 2 = 1) (hn : 1 ≤ n) :
    (shape (fixed_padding (Tensor.input b n w c) k df)).height = n + k - 1 ∧
    (shape (conv2d_fixed_padding (Tensor.input b n w c) f k s df)).height =
      (n - 1) / s + 1 ∧
    (n - 1) / s + 1 = (n + s - 1) / s := by
  have hne : ¬ s = 1 := by omega
  have hnum : n + 2 * ((k - 1) / 2) - k = n - 1 := by omega
  refine ⟨?_, ?_, ?_⟩
  · simp only [fixed_padding, shape]
    omega
  · simp only [conv2d_fixed_padding, fixed_padding, shape, convOutDim,
      if_pos hs, if_neg hne]
    rw [hnum]
  · have h3 : n + s - 1 = (n - 1) + s := by omega
    rw [h3, Nat.add_div_right _ (by omega : 0 < s)]

/-- C10 (witness): the theorem at `n = 5`, `k = 3`, `s = 2`:
output extent `(5 - 1) / 2 + 1 = 3 = ceil(5 / 2)`. -/
theorem c10_strided_output_extent_witness :
    (shape (fixed_padding (Tensor.input 1 5 9 3) 3 "channels_last")).height =
      5 + 3 - 1 ∧
    (shape (conv2d_fixed_padding (Tensor.input 1 5 9 3) 8 3 2
      "channels_last")).height = (5 - 1) / 2 + 1 ∧
    (5 - 1) / 2 + 1 = (5 + 2 - 1) / 2 :=
  c10_strided_output_extent 1 5 9 3 8 3 2 "channels_last"
    (by decide) (by decide) (by decide)

/-- C7: the module performs no error handling of its own — its functions
are total graph constructors returning plain `Tensor` values with no error
type — so any failure (`evalShape` returning `none`) of any graph
originates solely in the underlying framework's validation inside a
called primitive: there is always a sub-expression whose own primitive
check fails while all of its children evaluate successfully. -/
theorem c7_failures_originate_in_primitives (g : Tensor)
    (hfail : evalShape g = none) :
    ∃ u, u ∈ subterms g ∧ evalShape u = none ∧
      ∀ c ∈ children u, ∃ sh, evalShape c = some sh := by
  induction g with
  | input b h w c => simp [evalShape] at hfail
  | zeroPad2D symH symW t ih =>
    rcases het : evalShape t with _ | s
    · obtain ⟨u, hu, h1, h2⟩ := ih het
      exact ⟨u, by simp only [subterms]; exact List.mem_cons_of_mem _ hu, h1, h2⟩
    · rw [evalShape, het] at hfail
      simp at hfail
  | conv2D filters kernelSize strides pad t ih =>
    rcases het : evalShape t with _ | s
    · obtain ⟨u, hu, h1, h2⟩ := ih het
      exact ⟨u, by simp only [subterms]; exact List.mem_cons_of_mem _ hu, h1, h2⟩
    · refine ⟨Tensor.conv2D filters kernelSize strides pad t,
        by simp only [subterms]; exact List.mem_cons_self _ _, hfail, ?_⟩
      intro c hc
      simp only [children, List.mem_singleton] at hc
      exact ⟨s, hc ▸ het⟩
  | batchNorm a tr t ih =>
    rcases het : evalShape t with _ | s
    · obtain ⟨u, hu, h1, h2⟩ := ih het
      exact ⟨u, by simp only [subterms]; exact List.mem_cons_of_mem _ hu, h1, h2⟩
    · rw [evalShape, het] at hfail
      simp at hfail
  | relu t ih =>
    rcases het : evalShape t with _ | s
    · obtain ⟨u, hu, h1, h2⟩ := ih het
      exact ⟨u, by simp only [subterms]; exact List.mem_cons_of_mem _ hu, h1, h2⟩
    · rw [evalShape, het] at hfail
      simp at hfail
  | maxPool2D poolSize strides pad t ih =>
    rcases het : evalShape t with _ | s
    · obtain ⟨u, hu, h1, h2⟩ := ih het
      exact ⟨u, by simp only [subterms]; exact List.mem_cons_of_mem _ hu, h1, h2⟩
    · refine ⟨Tensor.maxPool2D poolSize strides pad t,
        by simp only [subterms]; exact List.mem_cons_self _ _, hfail, ?_⟩
      intro c hc
      simp only [children, List.mem_singleton] at hc
      exact ⟨s, hc ▸ het⟩
  | add a b iha ihb =>
    rcases hea : evalShape a with _ | sa
    · obtain ⟨u, hu, h1, h2⟩ := iha hea
      exact ⟨u, by
        simp only [subterms]
        exact List.mem_cons_of_mem _ (List.mem_append_left _ hu), h1, h2⟩
    · rcases heb : evalShape b with _ | sb
      · obtain ⟨u, hu, h1, h2⟩ := ihb heb
        exact ⟨u, by
          simp only [subterms]
          exact List.mem_cons_of_mem _ (List.mem_append_right _ hu), h1, h2⟩
      · refine ⟨Tensor.add a b,
          by simp only [subterms]; exact List.mem_cons_self _ _, hfail, ?_⟩
        intro c hc
        simp only [children, List.mem_cons, List.not_mem_nil, or_false] at hc
        rcases hc with hc | hc
        · exact ⟨sa, hc ▸ hea⟩
        · exact ⟨sb, hc ▸ heb⟩
  | identity nm t ih =>
    rcases het : evalShape t with _ | s
    · obtain ⟨u, hu, h1, h2⟩ := ih het
      exact ⟨u, by simp only [subterms]; exact List.mem_cons_of_mem _ hu, h1, h2⟩
    · rw [evalShape, het] at hfail
      simp at hfail

/-- C7 (witness): a residual addition of two shape-mismatched inputs fails,
and the theorem locates a primitive sub-expression — here the `add` node
itself, the framework's elementwise-addition validation — whose children
both evaluate successfully. -/
theorem c7_failures_originate_in_primitives_witness :
    ∃ u, u ∈ subterms (Tensor.add (Tensor.input 1 8 8 4) (Tensor.input 1 4 4 4)) ∧
      evalShape u = none ∧
      ∀ c ∈ children u, ∃ sh, evalShape c = some sh :=
  c7_failures_originate_in_primitives
    (Tensor.add (Tensor.input 1 8 8 4) (Tensor.input 1 4 4 4)) (by decide)

end ResnetV2
